import Mathlib

/-!
Verification of the Substrait-to-Flow expression translator
(`src/flow/src/transform/expr.rs`, `impl TypedExpr`).

The data model (`ScalarExpr`, `TypedExpr`, `ColumnType`, `RelationType`) and
the three translation functions (`from_substrait_rex`,
`from_substrait_scalar_func`, `from_substrait_ifthen_rex`) are embedded
directly from the source.  Collaborators that live outside the provided
sources — the function registry (`UnaryFunc` / `BinaryFunc` / `VariadicFunc` /
`UnmaterializableFunc` resolution, signatures and evaluation), the
literal/type decoder (`from_substrait_literal`, `from_substrait_type`), the
value cast (`datatypes::types::cast`) and the variadic optimizer
(`ScalarExpr::optimize`) — are modelled from the spec, as noted on each
definition.

Rust's recursion is embedded with an explicit fuel argument; `RRes.nofuel`
is an artifact of that embedding (unreachable for sufficient fuel), while
`RRes.panic` models a genuine Rust panic (e.g. an out-of-bounds slice
index).  Fallible steps return `RRes.err` carrying the error the code
reports.
-/

/-- Scalar data types (`ConcreteDataType`), restricted to the variants the
claims and the repository tests exercise.  `null` is the untyped/null type
(`ConcreteDataType::null_datatype`). -/
inductive CDT : Type where
  | null
  | bool
  | int16
  | int64
  | uint32
deriving DecidableEq, Repr

/-- Test for the untyped/null type (`ConcreteDataType::is_null`). -/
def CDT.is_null : CDT → Bool
  | .null => true
  | _ => false

/-- Runtime values (`datatypes::value::Value`), restricted likewise.
Machine integers are carried as unbounded `Int`/`Nat`; the cast function
enforces the ranges. -/
inductive Value : Type where
  | null
  | bool (b : Bool)
  | int16 (n : Int)
  | int64 (n : Int)
  | uint32 (n : Nat)
deriving DecidableEq, Repr

/-- A scalar type together with a nullability flag (`repr::ColumnType`). -/
structure ColumnType : Type where
  scalar_type : CDT
  nullable : Bool
deriving DecidableEq, Repr

/-- Constructor `ColumnType::new_nullable`. -/
def ColumnType.new_nullable (t : CDT) : ColumnType := ⟨t, true⟩

/-- Ordered sequence of column types (`repr::RelationType`). -/
structure RelationType : Type where
  column_types : List ColumnType
deriving DecidableEq, Repr

/-- A function signature: declared input types, one output type
(`expr::Signature`, as used by the translator). -/
structure Signature : Type where
  input : List CDT
  output : CDT
deriving DecidableEq, Repr

/-- Unary functions (`expr::UnaryFunc`), restricted to the variants the
claims exercise.  `cast` is parameterized by its target type. -/
inductive UnaryFunc : Type where
  | Cast (t : CDT)
  | Not
deriving DecidableEq, Repr

/-- Binary functions (`expr::BinaryFunc`), restricted to the variants the
claims and the repository tests exercise. -/
inductive BinaryFunc : Type where
  | Eq
  | NotEq
  | Lte
  | Gte
  | AddInt64
  | AddUInt32
deriving DecidableEq, Repr

/-- Variadic functions (`expr::VariadicFunc`). -/
inductive VariadicFunc : Type where
  | And
  | Or
deriving DecidableEq, Repr

/-- Context-dependent zero-argument functions (`expr::UnmaterializableFunc`). -/
inductive UnmaterializableFunc : Type where
  | Now
deriving DecidableEq, Repr

/-- Evaluation failure of a resolved function over literal operands
(wrapped by `EvalSnafu`). -/
structure EvalError : Type where
  msg : String
deriving DecidableEq, Repr

/-- Errors reported by the translator, named after the snafu selectors the
source uses: `NotImplementedSnafu`, `InvalidQuerySnafu`, `PlanSnafu`,
`DatatypesSnafu` (here carrying the literal value and target type of the
failed implicit cast), `EvalSnafu`. -/
inductive FlowError : Type where
  | notImplemented (reason : String)
  | invalidQuery (reason : String)
  | plan (reason : String)
  | datatypesCast (val : Value) (dest : CDT)
  | evalError (e : EvalError)
deriving DecidableEq, Repr

/-- The kind of a `FlowError`, used to compare error taxonomies. -/
inductive ErrKind : Type where
  | notImplemented
  | invalidQuery
  | plan
  | datatypes
  | eval
deriving DecidableEq, Repr

/-- Kind projection for `FlowError`. -/
def FlowError.kind : FlowError → ErrKind
  | .notImplemented _ => .notImplemented
  | .invalidQuery _ => .invalidQuery
  | .plan _ => .plan
  | .datatypesCast _ _ => .datatypes
  | .evalError _ => .eval

/-- Result of a translation step.  `ok`/`err` are Rust's `Ok`/`Err`;
`panic` models a Rust panic (the code aborting without reporting an error);
`nofuel` is an artifact of the fuel embedding of recursion and is
unreachable when enough fuel is supplied. -/
inductive RRes (α : Type) : Type where
  | ok (a : α)
  | err (e : FlowError)
  | panic
  | nofuel
deriving DecidableEq, Repr

/-- The kind of the error carried by a result, if any. -/
def RRes.errKind {α : Type} : RRes α → Option ErrKind
  | .err e => some e.kind
  | _ => none

/-- Sequencing of results: continue on `ok`, propagate anything else
(Rust's `?`). -/
def RRes.andThen {α β : Type} : RRes α → (α → RRes β) → RRes β
  | .ok a, f => f a
  | .err e, _ => .err e
  | .panic, _ => .panic
  | .nofuel, _ => .nofuel

/-- The internal scalar expression tree (`expr::ScalarExpr`). -/
inductive ScalarExpr : Type where
  | Column (i : Nat)
  | Literal (v : Value) (t : CDT)
  | CallUnmaterializable (f : UnmaterializableFunc)
  | CallUnary (f : UnaryFunc) (e : ScalarExpr)
  | CallBinary (f : BinaryFunc) (e1 : ScalarExpr) (e2 : ScalarExpr)
  | CallVariadic (f : VariadicFunc) (exprs : List ScalarExpr)
  | If (c : ScalarExpr) (t : ScalarExpr) (e : ScalarExpr)

/-- Test from the source: `ScalarExpr::is_literal`. -/
def ScalarExpr.is_literal : ScalarExpr → Bool
  | .Literal _ _ => true
  | _ => false

/-- Builder `ScalarExpr::call_unary`. -/
def ScalarExpr.call_unary (e : ScalarExpr) (f : UnaryFunc) : ScalarExpr :=
  .CallUnary f e

/-- Builder `ScalarExpr::call_binary`. -/
def ScalarExpr.call_binary (e1 : ScalarExpr) (e2 : ScalarExpr) (f : BinaryFunc) : ScalarExpr :=
  .CallBinary f e1 e2

/-- Builder `ScalarExpr::literal_null`: a null literal of the null type. -/
def ScalarExpr.literal_null : ScalarExpr :=
  .Literal .null .null

/-- One child of a variadic call, flattened when it is a nested call of the
same operator.  Helper for `ScalarExpr.optimize`. -/
def optimize_child (func : VariadicFunc) (e : ScalarExpr) : List ScalarExpr :=
  match e with
  | .CallVariadic f2 es => if f2 = func then es else [.CallVariadic f2 es]
  | e => [e]

/-- Modelled from the spec: `ScalarExpr::optimize`, the in-place
optimization pass run immediately after building a `CallVariadic`, which
"flattens nested associative calls of the same operator (e.g., chained AND)
into a single flat argument list".  On any other node it is the
identity. -/
def ScalarExpr.optimize : ScalarExpr → ScalarExpr
  | .CallVariadic func exprs => .CallVariadic func (exprs.flatMap (optimize_child func))
  | e => e

/-- An expression node bundled with its inferred column type
(`expr::TypedExpr`). -/
structure TypedExpr : Type where
  expr : ScalarExpr
  typ : ColumnType

/-- Constructor `TypedExpr::new`. -/
def TypedExpr.new (expr : ScalarExpr) (typ : ColumnType) : TypedExpr := ⟨expr, typ⟩

/-- Modelled from the spec: a decoded portable literal.  The decoder
(`transform::literal::from_substrait_literal`) "converts portable literal
values ... into internal value/type representations"; the portable payload
is modelled as already carrying the decoded value/type pair. -/
structure PLiteral : Type where
  value : Value
  typ : CDT
deriving DecidableEq, Repr

/-- Modelled from the spec: a portable type descriptor, as decoded by
`transform::literal::from_substrait_type`. -/
structure PType : Type where
  typ : CDT
deriving DecidableEq, Repr

/-- Modelled from the spec: `from_substrait_literal`, returning the decoded
(value, type) pair. -/
def from_substrait_literal (lit : PLiteral) : Value × CDT :=
  (lit.value, lit.typ)

/-- Modelled from the spec: `from_substrait_type`, returning the decoded
internal type. -/
def from_substrait_type (t : PType) : CDT :=
  t.typ

/-- The reference segment of a field reference
(`reference_segment::ReferenceType`): a struct-field segment carries the
referenced column index (proto `i32`, cast to `usize` by the code; modelled
as `Nat`) and an optional child segment (never descended into, modelled as
`Option Unit`). -/
inductive RefSegment : Type where
  | structField (field : Nat) (child : Option Unit)
  | otherSegment
deriving DecidableEq, Repr

/-- The reference type of a field reference
(`field_reference::ReferenceType`). -/
inductive FieldRefType : Type where
  | directReference (seg : Option RefSegment)
  | otherRef
deriving DecidableEq, Repr

/-- A Substrait field reference node (`expression::FieldReference`). -/
structure FieldReference : Type where
  reference_type : Option FieldRefType
deriving DecidableEq, Repr

mutual
/-- A Substrait expression node (`substrait_proto::proto::Expression`):
an optional `RexType` payload. -/
inductive Expression : Type where
  | mk (rex_type : Option RexType) : Expression
/-- The concrete kind of a Substrait expression
(`expression::RexType`), restricted to the kinds the translator consumes.
The window-function payload is never inspected by the translator (matched
with `_`) and is modelled abstractly as a `Nat`; every kind the translator
does not recognize is collapsed into `otherRexType`. -/
inductive RexType : Type where
  | literal (lit : PLiteral) : RexType
  | singularOrList (value : Option Expression) (options : List Expression) : RexType
  | selection (field_ref : FieldReference) : RexType
  | scalarFunction (f : PScalarFunction) : RexType
  | ifThen (if_then : PIfThen) : RexType
  | cast (c : PCast) : RexType
  | windowFunction (content : Nat) : RexType
  | otherRexType : RexType
/-- A Substrait scalar function call (`expression::ScalarFunction`): a
numeric function reference and a list of arguments. -/
inductive PScalarFunction : Type where
  | mk (function_reference : Nat) (arguments : List FunctionArgument) : PScalarFunction
/-- A Substrait function argument (`FunctionArgument`). -/
inductive FunctionArgument : Type where
  | mk (arg_type : Option ArgType) : FunctionArgument
/-- The kind of a function argument (`function_argument::ArgType`): a plain
value expression, or one of the kinds the translator rejects. -/
inductive ArgType : Type where
  | value (e : Expression) : ArgType
  | otherArg : ArgType
/-- A Substrait if-then node (`expression::IfThen`): clause list plus
optional else branch. -/
inductive PIfThen : Type where
  | mk (ifs : List IfClause) (els : Option Expression) : PIfThen
/-- One clause of an if-then node (`if_then::IfClause`): optional condition
(proto field `if`) and optional consequent (proto field `then`). -/
inductive IfClause : Type where
  | mk (if_cond : Option Expression) (then_val : Option Expression) : IfClause
/-- A Substrait cast node (`expression::Cast`): optional input expression
and optional target type descriptor. -/
inductive PCast : Type where
  | mk (input : Option Expression) (typ : Option PType) : PCast
end

/-- Projection: the `rex_type` field of an `Expression`. -/
def Expression.rex_type : Expression → Option RexType
  | .mk r => r

/-- Projection: the `function_reference` field of a `ScalarFunction`. -/
def PScalarFunction.function_reference : PScalarFunction → Nat
  | .mk r _ => r

/-- Projection: the `arguments` field of a `ScalarFunction`. -/
def PScalarFunction.arguments : PScalarFunction → List FunctionArgument
  | .mk _ args => args

/-- Projection: the `arg_type` field of a `FunctionArgument`. -/
def FunctionArgument.arg_type : FunctionArgument → Option ArgType
  | .mk a => a

/-- Projection: the clause list of an `IfThen` node. -/
def PIfThen.ifs : PIfThen → List IfClause
  | .mk l _ => l

/-- Projection: the optional else branch of an `IfThen` node. -/
def PIfThen.els : PIfThen → Option Expression
  | .mk _ e => e

/-- Projection: the optional condition of an `IfClause`. -/
def IfClause.if_cond : IfClause → Option Expression
  | .mk c _ => c

/-- Projection: the optional consequent of an `IfClause`. -/
def IfClause.then_val : IfClause → Option Expression
  | .mk _ t => t

/-- Projection: the optional input expression of a `Cast` node. -/
def PCast.input : PCast → Option Expression
  | .mk i _ => i

/-- Projection: the optional target type descriptor of a `Cast` node. -/
def PCast.typ : PCast → Option PType
  | .mk _ t => t

/-- The function-extension mapping (`transform::FunctionExtensions`):
resolves a numeric function reference to a function name. -/
structure FunctionExtensions : Type where
  get : Nat → Option String

/-- Modelled from the spec: the function registry, which "maps a function
name to zero or more callable forms (unary, binary, variadic,
unmaterializable) each with a declared argument/return type signature; pure
lookup".  The fields correspond to `VariadicFunc::from_str_and_types`,
`UnaryFunc::from_str_and_type`, `BinaryFunc::from_str_expr_and_type`,
`UnmaterializableFunc::from_str`, the `signature()` methods of each
function kind, and `BinaryFunc::eval` (evaluation against a runtime row
context and two argument expressions).  The translator is parameterized
over it because the registry lives outside the provided sources. -/
structure Registry : Type where
  variadic_from_str_and_types : String → List (Option CDT) → Except FlowError VariadicFunc
  unary_from_str_and_type : String → Option CDT → Except FlowError UnaryFunc
  binary_from_str_expr_and_type :
    String → List ScalarExpr → List (Option CDT) → Except FlowError (BinaryFunc × Signature)
  unmaterializable_from_str : String → Except FlowError UnmaterializableFunc
  unary_signature : UnaryFunc → Signature
  binary_signature : BinaryFunc → Signature
  variadic_signature : VariadicFunc → Signature
  unmaterializable_signature : UnmaterializableFunc → Signature
  binary_eval : BinaryFunc → List Value → ScalarExpr → ScalarExpr → Except EvalError Value

/-- Modelled from the spec: `datatypes::types::cast`, casting a literal
value to a target scalar type; `none` when "an implicit or explicit cast
cannot be performed between the literal's decoded type and the target
type". -/
def dtypes_cast (v : Value) (t : CDT) : Option Value :=
  match v, t with
  | .null, _ => some .null
  | .bool b, .bool => some (.bool b)
  | .int16 n, .int16 => some (.int16 n)
  | .int16 n, .int64 => some (.int64 n)
  | .int16 n, .uint32 => if 0 ≤ n then some (.uint32 n.toNat) else none
  | .int64 n, .int64 => some (.int64 n)
  | .int64 n, .int16 => if -32768 ≤ n ∧ n < 32768 then some (.int16 n) else none
  | .int64 n, .uint32 => if 0 ≤ n ∧ n < 4294967296 then some (.uint32 n.toNat) else none
  | .uint32 n, .uint32 => some (.uint32 n)
  | .uint32 n, .int64 => some (.int64 n)
  | .uint32 n, .int16 => if n < 32768 then some (.int16 n) else none
  | _, _ => none

/-- Boolean test for `Result::is_err` on the registry's `Except` results. -/
def exceptIsErr {ε α : Type} : Except ε α → Bool
  | .error _ => true
  | .ok _ => false

/-- One iteration of the implicit-cast loop of the binary branch of
`from_substrait_scalar_func` (lines 109–126): a literal argument has its
value cast to the signature's input type at its position — skipped when
that input type is null — and its declared type replaced by that input
type; any non-literal argument is returned untouched.  Indexing
`signature.input[idx]` panics in Rust when out of bounds, modelled by
`RRes.panic`. -/
def cast_literal_arg (signature : Signature) (idx : Nat) (arg_expr : ScalarExpr) :
    RRes ScalarExpr :=
  match arg_expr with
  | .Literal val typ =>
    match signature.input[idx]? with
    | none => .panic
    | some dest_type =>
      if ¬ dest_type.is_null then
        match dtypes_cast val dest_type with
        | none => .err (.datatypesCast val dest_type)
        | some dest_val => .ok (.Literal dest_val dest_type)
      else .ok (.Literal val dest_type)
  | e => .ok e

/-- The `_var` fallback arm of the arity match in
`from_substrait_scalar_func` (lines 132–150): attempt variadic resolution
(on success build a `CallVariadic` and immediately run the optimizer), then
unmaterializable resolution, then fail naming the function and arity. -/
def scalar_func_var (reg : Registry) (fn_name : String)
    (arg_exprs : List ScalarExpr) (arg_types : List (Option CDT)) : RRes TypedExpr :=
  match reg.variadic_from_str_and_types fn_name arg_types with
  | .ok func =>
    let ret_type := ColumnType.new_nullable (reg.variadic_signature func).output
    .ok (TypedExpr.new (ScalarExpr.CallVariadic func arg_exprs).optimize ret_type)
  | .error _ =>
    match reg.unmaterializable_from_str fn_name with
    | .ok func =>
      let ret_type := ColumnType.new_nullable (reg.unmaterializable_signature func).output
      .ok (TypedExpr.new (.CallUnmaterializable func) ret_type)
    | .error _ =>
      .err (.notImplemented
        ("Unsupported function " ++ fn_name ++ " with " ++
          toString arg_exprs.length ++ " arguments"))

/-- The arity match of `from_substrait_scalar_func` (lines 81–151), applied
to the partitioned arguments: each argument is an expression paired with
its declared type (`none` for literals).  The two lists of the source's
`unzip` are carried as one list of pairs; `arg_len` is its length. -/
def scalar_func_resolve (reg : Registry) (fn_name : String)
    (args : List (ScalarExpr × Option CDT)) : RRes TypedExpr :=
  match args with
  | [(a1, t1)] =>
    if exceptIsErr (reg.variadic_from_str_and_types fn_name [t1]) then
      match reg.unary_from_str_and_type fn_name none with
      | .error e => .err e
      | .ok func =>
        let ret_type := ColumnType.new_nullable (reg.unary_signature func).output
        .ok (TypedExpr.new (a1.call_unary func) ret_type)
    else scalar_func_var reg fn_name [a1] [t1]
  | [(a1, t1), (a2, t2)] =>
    if exceptIsErr (reg.variadic_from_str_and_types fn_name [t1, t2]) then
      match reg.binary_from_str_expr_and_type fn_name [a1, a2] [t1, t2] with
      | .error e => .err e
      | .ok (func, signature) =>
        if a1.is_literal && a2.is_literal then
          match reg.binary_eval func [] a1 a2 with
          | .error e => .err (.evalError e)
          | .ok res =>
            let con_typ := signature.output
            let typ := ColumnType.new_nullable con_typ
            .ok (TypedExpr.new (.Literal res con_typ) typ)
        else
          match cast_literal_arg signature 0 a1 with
          | .err e => .err e
          | .panic => .panic
          | .nofuel => .nofuel
          | .ok a1' =>
            match cast_literal_arg signature 1 a2 with
            | .err e => .err e
            | .panic => .panic
            | .nofuel => .nofuel
            | .ok a2' =>
              let ret_type := ColumnType.new_nullable (reg.binary_signature func).output
              .ok (TypedExpr.new (a1'.call_binary a2' func) ret_type)
    else scalar_func_var reg fn_name [a1, a2] [t1, t2]
  | _ => scalar_func_var reg fn_name (args.map Prod.fst) (args.map Prod.snd)

/-- Argument translation of `from_substrait_scalar_func` (lines 52–62):
each argument must be a plain value argument and is translated by the given
translator; the first failure aborts (`try_collect`). -/
def collect_args (rexFn : Expression → RRes TypedExpr) :
    List FunctionArgument → RRes (List TypedExpr)
  | [] => .ok []
  | arg :: rest =>
    match
      (match arg.arg_type with
       | some (.value e) => rexFn e
       | _ => .err (.notImplemented "Aggregated function argument non-Value type not supported"))
    with
    | .err e => .err e
    | .panic => .panic
    | .nofuel => .nofuel
    | .ok te =>
      match collect_args rexFn rest with
      | .err e => .err e
      | .panic => .panic
      | .nofuel => .nofuel
      | .ok tes => .ok (te :: tes)

/-- The partition of translated arguments (lines 64–79): a literal argument
contributes no declared type ("literal's type is determined by the function
and type of other args"); any other argument contributes its inferred
scalar type. -/
def partition_arg (te : TypedExpr) : ScalarExpr × Option CDT :=
  if te.expr.is_literal then (te.expr, none) else (te.expr, some te.typ.scalar_type)

/-- Translation of a Substrait `ScalarFunction` node
(`TypedExpr::from_substrait_scalar_func`, lines 38–152): resolve the
function name through the extension mapping, translate every argument,
partition into (expression, optional declared type) pairs, and dispatch on
the arity.  `rexFn` stands for the recursive call
`TypedExpr::from_substrait_rex(_, input_schema, extensions)`. -/
def from_substrait_scalar_func (reg : Registry)
    (rexFn : Expression → RRes TypedExpr)
    (f : PScalarFunction) (extensions : FunctionExtensions) : RRes TypedExpr :=
  match extensions.get f.function_reference with
  | none =>
    .err (.notImplemented
      ("Aggregated function not found: function reference = " ++
        toString f.function_reference))
  | some fn_name =>
    match collect_args rexFn f.arguments with
    | .err e => .err e
    | .panic => .panic
    | .nofuel => .nofuel
    | .ok arg_exprs =>
      scalar_func_resolve reg fn_name (arg_exprs.map partition_arg)

/-- Clause translation of `from_substrait_ifthen_rex` (lines 160–174): each
clause must carry a condition (proto `if`) and a consequent (proto `then`),
which are then translated; the first failure aborts (`try_collect`). -/
def collect_ifs (rexFn : Expression → RRes TypedExpr) :
    List IfClause → RRes (List (TypedExpr × TypedExpr))
  | [] => .ok []
  | if_clause :: rest =>
    match if_clause.if_cond with
    | none => .err (.invalidQuery "IfThen clause without if")
    | some proto_if =>
      match if_clause.then_val with
      | none => .err (.invalidQuery "IfThen clause without then")
      | some proto_then =>
        match rexFn proto_if with
        | .err e => .err e
        | .panic => .panic
        | .nofuel => .nofuel
        | .ok cond =>
          match rexFn proto_then with
          | .err e => .err e
          | .panic => .panic
          | .nofuel => .nofuel
          | .ok then_res =>
            match collect_ifs rexFn rest with
            | .err e => .err e
            | .panic => .panic
            | .nofuel => .nofuel
            | .ok rest_res => .ok ((cond, then_res) :: rest_res)

/-- Else-branch handling of `from_substrait_ifthen_rex` (lines 175–186):
translate the else branch when present, otherwise default to a null
literal of nullable null type. -/
def ifthen_els (rexFn : Expression → RRes TypedExpr) :
    Option Expression → RRes TypedExpr
  | some e => rexFn e
  | none => .ok (TypedExpr.new ScalarExpr.literal_null (ColumnType.new_nullable .null))

/-- The inner function `build_if_then_recur` (lines 188–205): fold the
translated clauses into a right-associated nested `If` chain around the
else expression; each `If` node takes its type from its own `then`
branch. -/
def build_if_then_recur : List (TypedExpr × TypedExpr) → TypedExpr → TypedExpr
  | [], els => els
  | (cond, then_res) :: rest, els =>
    TypedExpr.new
      (.If cond.expr then_res.expr (build_if_then_recur rest els).expr)
      then_res.typ

/-- Translation of a Substrait `IfThen` node
(`TypedExpr::from_substrait_ifthen_rex`, lines 155–208).  `rexFn` stands
for the recursive call `TypedExpr::from_substrait_rex(_, input_schema,
extensions)`. -/
def from_substrait_ifthen_rex (rexFn : Expression → RRes TypedExpr)
    (if_then : PIfThen) : RRes TypedExpr :=
  match collect_ifs rexFn if_then.ifs with
  | .err e => .err e
  | .panic => .panic
  | .nofuel => .nofuel
  | .ok ifs =>
    match ifthen_els rexFn if_then.els with
    | .err e => .err e
    | .panic => .panic
    | .nofuel => .nofuel
    | .ok els => .ok (build_if_then_recur ifs els)

/-- Translation of a Substrait expression node
(`TypedExpr::from_substrait_rex`, lines 210–283), dispatching on the node's
concrete kind.  Recursion is embedded with an explicit fuel argument; with
fuel `0` the result is the embedding artifact `RRes.nofuel`. -/
def from_substrait_rex (reg : Registry) :
    Nat → Expression → RelationType → FunctionExtensions → RRes TypedExpr
  | 0, _, _, _ => .nofuel
  | fuel + 1, e, input_schema, extensions =>
    match e.rex_type with
    | some (.literal lit) =>
      let l := from_substrait_literal lit
      .ok (TypedExpr.new (.Literal l.1 l.2) (ColumnType.new_nullable l.2))
    | some (.singularOrList value options) =>
      match value with
      | none => .err (.invalidQuery "SingularOrList expression without value")
      | some substrait_expr =>
        if ¬ options.isEmpty then
          .err (.notImplemented "In list expression is not supported")
        else from_substrait_rex reg fuel substrait_expr input_schema extensions
    | some (.selection field_ref) =>
      match field_ref.reference_type with
      | some (.directReference direct) =>
        match direct with
        | some (.structField field child) =>
          match child with
          | some _ =>
            .err (.notImplemented "Direct reference StructField with child is not supported")
          | none =>
            match input_schema.column_types[field]? with
            | some column_type => .ok (TypedExpr.new (.Column field) column_type)
            | none => .panic
        | _ =>
          .err (.notImplemented
            "Direct reference with types other than StructField is not supported")
      | _ => .err (.notImplemented "unsupported field ref type")
    | some (.scalarFunction f) =>
      from_substrait_scalar_func reg
        (fun e2 => from_substrait_rex reg fuel e2 input_schema extensions) f extensions
    | some (.ifThen if_then) =>
      from_substrait_ifthen_rex
        (fun e2 => from_substrait_rex reg fuel e2 input_schema extensions) if_then
    | some (.cast c) =>
      match c.input with
      | none => .err (.invalidQuery "Cast expression without input")
      | some input_e =>
        match from_substrait_rex reg fuel input_e input_schema extensions with
        | .err er => .err er
        | .panic => .panic
        | .nofuel => .nofuel
        | .ok input =>
          match c.typ with
          | none => .err (.invalidQuery "Cast expression without type")
          | some t =>
            let cast_type := from_substrait_type t
            match reg.unary_from_str_and_type "cast" (some cast_type) with
            | .error er => .err er
            | .ok func =>
              .ok (TypedExpr.new (input.expr.call_unary func)
                (ColumnType.new_nullable cast_type))
    | some (.windowFunction _) =>
      .err (.plan
        "Window function is not supported yet. Please use aggregation function instead.")
    | some .otherRexType => .err (.notImplemented "unsupported rex_type")
    | none => .err (.notImplemented "unsupported rex_type")

/-- Modelled from the spec: variadic resolution of the registry.  `and` and
`or` resolve regardless of the argument types. -/
def spec_variadic (name : String) (_types : List (Option CDT)) : Except FlowError VariadicFunc :=
  match name with
  | "and" => .ok .And
  | "or" => .ok .Or
  | _ => .error (.notImplemented ("Invalid variadic function " ++ name))

/-- Modelled from the spec: unary resolution of the registry.  The `cast`
form is parameterized by the target type passed alongside the name. -/
def spec_unary (name : String) (t : Option CDT) : Except FlowError UnaryFunc :=
  match name, t with
  | "cast", some ty => .ok (.Cast ty)
  | "not", none => .ok .Not
  | _, _ => .error (.notImplemented ("Invalid unary function " ++ name))

/-- Preferred input type of a binary signature: the first fixed
(non-literal) argument type, defaulting to int64 when both arguments are
negotiable literals.  Helper for `spec_binary`. -/
def pick_type (t1 t2 : Option CDT) : CDT :=
  match t1, t2 with
  | some t, _ => t
  | none, some t => t
  | none, none => .int64

/-- Modelled from the spec: binary resolution of the registry.  Only the
fixed (non-negotiable) argument types influence the chosen signature;
mixed literal/column arithmetic thereby adopts the column's type
(e.g. `add` over a uint32 column resolves to `AddUInt32`). -/
def spec_binary (name : String) (_exprs : List ScalarExpr) (types : List (Option CDT)) :
    Except FlowError (BinaryFunc × Signature) :=
  let t := pick_type (types.getD 0 none) (types.getD 1 none)
  match name with
  | "add" =>
    match t with
    | .uint32 => .ok (.AddUInt32, ⟨[.uint32, .uint32], .uint32⟩)
    | _ => .ok (.AddInt64, ⟨[.int64, .int64], .int64⟩)
  | "gte" => .ok (.Gte, ⟨[t, t], .bool⟩)
  | "lte" => .ok (.Lte, ⟨[t, t], .bool⟩)
  | "not_equal" => .ok (.NotEq, ⟨[t, t], .bool⟩)
  | "equal" => .ok (.Eq, ⟨[t, t], .bool⟩)
  | _ => .error (.notImplemented ("Invalid binary function " ++ name))

/-- Modelled from the spec: unmaterializable resolution of the registry. -/
def spec_unmat (name : String) : Except FlowError UnmaterializableFunc :=
  match name with
  | "now" => .ok .Now
  | _ => .error (.notImplemented ("Invalid unmaterializable function " ++ name))

/-- Modelled from the spec: declared signatures of unary functions. -/
def spec_unary_signature : UnaryFunc → Signature
  | .Cast t => ⟨[.null], t⟩
  | .Not => ⟨[.bool], .bool⟩

/-- Modelled from the spec: declared signatures of binary functions. -/
def spec_binary_signature : BinaryFunc → Signature
  | .Eq => ⟨[.null, .null], .bool⟩
  | .NotEq => ⟨[.null, .null], .bool⟩
  | .Lte => ⟨[.null, .null], .bool⟩
  | .Gte => ⟨[.null, .null], .bool⟩
  | .AddInt64 => ⟨[.int64, .int64], .int64⟩
  | .AddUInt32 => ⟨[.uint32, .uint32], .uint32⟩

/-- Modelled from the spec: declared signatures of variadic functions. -/
def spec_variadic_signature : VariadicFunc → Signature
  | _ => ⟨[.bool], .bool⟩

/-- Modelled from the spec: declared signatures of unmaterializable
functions. -/
def spec_unmat_signature : UnmaterializableFunc → Signature
  | .Now => ⟨[], .int64⟩

/-- Modelled from the spec: evaluation of a binary function over two
literal values; fails with an `EvalError` on overflow or an invalid
operation. -/
def eval_binary_values (func : BinaryFunc) (v1 v2 : Value) : Except EvalError Value :=
  match func, v1, v2 with
  | .AddInt64, .int64 a, .int64 b =>
    if -9223372036854775808 ≤ a + b ∧ a + b < 9223372036854775808 then .ok (.int64 (a + b))
    else .error ⟨"numeric overflow"⟩
  | .AddUInt32, .uint32 a, .uint32 b =>
    if a + b < 4294967296 then .ok (.uint32 (a + b)) else .error ⟨"numeric overflow"⟩
  | .Gte, .uint32 a, .uint32 b => .ok (.bool (decide (b ≤ a)))
  | .Gte, .int64 a, .int64 b => .ok (.bool (decide (b ≤ a)))
  | .Lte, .uint32 a, .uint32 b => .ok (.bool (decide (a ≤ b)))
  | .Lte, .int64 a, .int64 b => .ok (.bool (decide (a ≤ b)))
  | .Eq, a, b => .ok (.bool (decide (a = b)))
  | .NotEq, a, b => .ok (.bool (! decide (a = b)))
  | _, _, _ => .error ⟨"invalid operation"⟩

/-- Modelled from the spec: `BinaryFunc::eval` restricted to literal
argument expressions (the only shape the constant folder feeds it), with
an (unused) runtime-row context. -/
def spec_binary_eval (func : BinaryFunc) (_values : List Value)
    (a : ScalarExpr) (b : ScalarExpr) : Except EvalError Value :=
  match a, b with
  | .Literal v1 _, .Literal v2 _ => eval_binary_values func v1 v2
  | _, _ => .error ⟨"cannot eval non-literal expression"⟩

/-- Modelled from the spec: the concrete function registry, with the
resolution behavior the spec and the repository tests describe. -/
def specRegistry : Registry where
  variadic_from_str_and_types := spec_variadic
  unary_from_str_and_type := spec_unary
  binary_from_str_expr_and_type := spec_binary
  unmaterializable_from_str := spec_unmat
  unary_signature := spec_unary_signature
  binary_signature := spec_binary_signature
  variadic_signature := spec_variadic_signature
  unmaterializable_signature := spec_unmat_signature
  binary_eval := spec_binary_eval

/-- Modelled from the spec: a registry instance under which a binary
function resolved from unconstrained arguments carries untyped (null)
slots in its declared signature — the situation behind §9's open question
on null-typed fold output. -/
def polyRegistry : Registry where
  variadic_from_str_and_types := fun name _ =>
    .error (.notImplemented ("Invalid variadic function " ++ name))
  unary_from_str_and_type := fun name _ =>
    .error (.notImplemented ("Invalid unary function " ++ name))
  binary_from_str_expr_and_type := fun name _ _ =>
    match name with
    | "nullout" => .ok (.Eq, ⟨[.int64, .int64], .null⟩)
    | "nullin" => .ok (.Gte, ⟨[.uint32, .null], .bool⟩)
    | _ => .error (.notImplemented ("Invalid binary function " ++ name))
  unmaterializable_from_str := fun name =>
    .error (.notImplemented ("Invalid unmaterializable function " ++ name))
  unary_signature := spec_unary_signature
  binary_signature := spec_binary_signature
  variadic_signature := spec_variadic_signature
  unmaterializable_signature := spec_unmat_signature
  binary_eval := spec_binary_eval

/-- A portable literal expression node. -/
def litExpr (v : Value) (t : CDT) : Expression :=
  .mk (some (.literal ⟨v, t⟩))

/-- A portable direct struct-field column reference node. -/
def colRefExpr (i : Nat) : Expression :=
  .mk (some (.selection ⟨some (.directReference (some (.structField i none)))⟩))

/-- A plain value argument of a scalar function call. -/
def valueArg (e : Expression) : FunctionArgument :=
  .mk (some (.value e))

/-- A portable scalar function call node over plain value arguments. -/
def funcCallExpr (fref : Nat) (args : List Expression) : Expression :=
  .mk (some (.scalarFunction (.mk fref (args.map valueArg))))

/-- A portable cast node. -/
def castExpr (input : Expression) (t : CDT) : Expression :=
  .mk (some (.cast (.mk (some input) (some ⟨t⟩))))

/-- A portable window function node with abstract content. -/
def windowExpr (content : Nat) : Expression :=
  .mk (some (.windowFunction content))

/-- The function-extension mapping used by the concrete instances below. -/
def testExtensions : FunctionExtensions where
  get := fun n =>
    match n with
    | 0 => some "and"
    | 1 => some "gte"
    | 2 => some "lte"
    | 3 => some "not_equal"
    | 4 => some "add"
    | 5 => some "now"
    | 6 => some "nullout"
    | 7 => some "nullin"
    | 8 => some "not"
    | _ => none

/-- The one-column unsigned-32 schema of the repository tests
(`SELECT ... FROM numbers`). -/
def uint32Schema : RelationType := ⟨[⟨.uint32, false⟩]⟩

/-- The empty schema. -/
def emptySchema : RelationType := ⟨[]⟩

/-- A concrete recursive translator over the spec registry, used to
instantiate the generic `rexFn` parameter in witnesses. -/
def rexW : Expression → RRes TypedExpr :=
  fun e => from_substrait_rex specRegistry 3 e uint32Schema testExtensions

/-- A concrete recursive translator over the polymorphic registry, used to
instantiate the generic `rexFn` parameter in witnesses. -/
def rexPolyW : Expression → RRes TypedExpr :=
  fun e => from_substrait_rex polyRegistry 3 e uint32Schema testExtensions

/-- A left-nested chain of two-argument calls to the function named by
`fref` — the shape a query parser gives `c1 AND c2 AND ... AND cN`. -/
def and_chain (fref : Nat) (first : Expression) (rest : List Expression) : Expression :=
  rest.foldl (fun acc c => funcCallExpr fref [acc, c]) first

/-- Test whether an expression is a variadic call of the given operator. -/
def is_variadic_call_of (vf : VariadicFunc) : ScalarExpr → Bool
  | .CallVariadic f _ => f = vf
  | _ => false

/-- The translation of an AND-chain: the translated head alone when the
chain is trivial, otherwise one flat variadic call over all the translated
elements. -/
def chain_result (reg : Registry) (vf : VariadicFunc) (tr : Expression → TypedExpr)
    (first : Expression) (rest : List Expression) : TypedExpr :=
  match rest with
  | [] => tr first
  | _ => TypedExpr.new (.CallVariadic vf ((first :: rest).map (fun c => (tr c).expr)))
      (ColumnType.new_nullable (reg.variadic_signature vf).output)

/-- C1: for a direct struct-field column reference, an in-range index
translates to `Column(index)` with the type copied from the schema at that
index, as the claim states; but an index that is not less than the schema
length makes the code panic through the unchecked slice index
`input_schema.column_types[column]` — translation does not fail with a
reported error, contradicting the claim's bounds property. -/
theorem c1_column_reference_bounds (reg : Registry) (fuel field : Nat)
    (schema : RelationType) (ext : FunctionExtensions) :
    (∀ ct, schema.column_types[field]? = some ct →
      from_substrait_rex reg (fuel + 1) (colRefExpr field) schema ext
        = .ok (TypedExpr.new (.Column field) ct)) ∧
    (schema.column_types.length ≤ field →
      from_substrait_rex reg (fuel + 1) (colRefExpr field) schema ext = .panic) := by
  constructor
  · intro ct h
    simp [from_substrait_rex, colRefExpr, Expression.rex_type, h]
  · intro h
    have hnone : schema.column_types[field]? = none := by
      simpa [List.getElem?_eq_none_iff] using h
    simp [from_substrait_rex, colRefExpr, Expression.rex_type, hnone]

/-- C1 witness: over the one-column uint32 schema, referencing column 0
yields `Column 0` of type uint32, while referencing column 5 panics. -/
theorem c1_column_reference_bounds_witness :
    from_substrait_rex specRegistry 1 (colRefExpr 0) uint32Schema testExtensions
      = .ok (TypedExpr.new (.Column 0) ⟨.uint32, false⟩) ∧
    from_substrait_rex specRegistry 1 (colRefExpr 5) uint32Schema testExtensions = .panic :=
  ⟨(c1_column_reference_bounds specRegistry 0 0 uint32Schema testExtensions).1
      ⟨.uint32, false⟩ rfl,
   (c1_column_reference_bounds specRegistry 0 5 uint32Schema testExtensions).2
      (by decide)⟩

/-- C2 (amended): every window-function node, regardless of its content,
fails — but through `PlanSnafu` (the `InvalidPlan` kind of the spec's
taxonomy), not through the `UnsupportedFeature` kind the claim states. -/
theorem c2_window_function_always_plan_error (reg : Registry) (fuel content : Nat)
    (schema : RelationType) (ext : FunctionExtensions) :
    from_substrait_rex reg (fuel + 1) (windowExpr content) schema ext
      = .err (.plan
          "Window function is not supported yet. Please use aggregation function instead.") := by
  simp [from_substrait_rex, windowExpr, Expression.rex_type]

/-- C2 counterexample: at a concrete window-function node the reported
error has the `plan` kind, which is not the `notImplemented` kind (the
embedding of the `UnsupportedFeature` taxonomy entry) required by the
claim. -/
theorem c2_window_function_kind_counterexample :
    (from_substrait_rex specRegistry 1 (windowExpr 0) uint32Schema testExtensions).errKind
      = some .plan ∧ ErrKind.plan ≠ ErrKind.notImplemented :=
  ⟨rfl, by decide⟩

/-- C4: a binary scalar-function call whose two arguments translate to
literals is constant-folded: the resolved function is evaluated immediately
with an empty runtime-row context against the two literal expressions, and
translation returns a single `Literal` node typed with the signature's
declared output type, the `TypedExpr` column type being its nullable
form — no `CallBinary` is constructed. -/
theorem c4_binary_constant_folding (reg : Registry)
    (rexFn : Expression → RRes TypedExpr) (ext : FunctionExtensions)
    (fref : Nat) (name : String) (eA eB : Expression)
    (v1 : Value) (t1 : CDT) (v2 : Value) (t2 : CDT) (ct1 ct2 : ColumnType)
    (func : BinaryFunc) (signature : Signature) (res : Value)
    (hname : ext.get fref = some name)
    (hA : rexFn eA = .ok ⟨.Literal v1 t1, ct1⟩)
    (hB : rexFn eB = .ok ⟨.Literal v2 t2, ct2⟩)
    (hvar : exceptIsErr (reg.variadic_from_str_and_types name [none, none]) = true)
    (hbin : reg.binary_from_str_expr_and_type name
      [.Literal v1 t1, .Literal v2 t2] [none, none] = .ok (func, signature))
    (heval : reg.binary_eval func [] (.Literal v1 t1) (.Literal v2 t2) = .ok res) :
    from_substrait_scalar_func reg rexFn (.mk fref [valueArg eA, valueArg eB]) ext
      = .ok (TypedExpr.new (.Literal res signature.output)
          (ColumnType.new_nullable signature.output)) := by
  simp [from_substrait_scalar_func, PScalarFunction.function_reference,
    PScalarFunction.arguments, hname, collect_args, valueArg, FunctionArgument.arg_type,
    hA, hB, partition_arg, ScalarExpr.is_literal, scalar_func_resolve, hvar, hbin, heval]

/-- C4 witness: `add(1, 2)` over int64 literals folds to the literal 3 of
type int64 with nullable-int64 column type. -/
theorem c4_binary_constant_folding_witness :
    from_substrait_scalar_func specRegistry rexW
      (.mk 4 [valueArg (litExpr (.int64 1) .int64), valueArg (litExpr (.int64 2) .int64)])
      testExtensions
      = .ok (TypedExpr.new (.Literal (.int64 3) .int64) (ColumnType.new_nullable .int64)) :=
  c4_binary_constant_folding specRegistry rexW testExtensions 4 "add"
    (litExpr (.int64 1) .int64) (litExpr (.int64 2) .int64)
    (.int64 1) .int64 (.int64 2) .int64 ⟨.int64, true⟩ ⟨.int64, true⟩
    .AddInt64 ⟨[.int64, .int64], .int64⟩ (.int64 3)
    rfl rfl rfl rfl rfl rfl

/-- C5: in the binary constant-fold path the folded literal's type is the
signature's declared output type even when that output type is the
untyped/null type — the code does not infer it from the input types,
although its own comment ("if output type is null, it should be inferred
from the input types") and the claim say it should.  With int64-typed
literal inputs and a null-typed declared output, the folded literal keeps
the null type. -/
theorem c5_null_output_not_inferred (reg : Registry)
    (rexFn : Expression → RRes TypedExpr) (ext : FunctionExtensions)
    (fref : Nat) (name : String) (eA eB : Expression)
    (v1 : Value) (t1 : CDT) (v2 : Value) (t2 : CDT) (ct1 ct2 : ColumnType)
    (func : BinaryFunc) (signature : Signature) (res : Value)
    (hname : ext.get fref = some name)
    (hA : rexFn eA = .ok ⟨.Literal v1 t1, ct1⟩)
    (hB : rexFn eB = .ok ⟨.Literal v2 t2, ct2⟩)
    (hvar : exceptIsErr (reg.variadic_from_str_and_types name [none, none]) = true)
    (hbin : reg.binary_from_str_expr_and_type name
      [.Literal v1 t1, .Literal v2 t2] [none, none] = .ok (func, signature))
    (heval : reg.binary_eval func [] (.Literal v1 t1) (.Literal v2 t2) = .ok res)
    (hout : signature.output = .null) :
    from_substrait_scalar_func reg rexFn (.mk fref [valueArg eA, valueArg eB]) ext
      = .ok (TypedExpr.new (.Literal res .null) (ColumnType.new_nullable .null)) := by
  simp [from_substrait_scalar_func, PScalarFunction.function_reference,
    PScalarFunction.arguments, hname, collect_args, valueArg, FunctionArgument.arg_type,
    hA, hB, partition_arg, ScalarExpr.is_literal, scalar_func_resolve, hvar, hbin, heval,
    hout]

/-- C5 witness: under `polyRegistry`, folding `nullout(1:int64, 2:int64)`
(declared output type null, inputs int64) yields a literal whose type is
left as the null type rather than inferred from the int64 inputs. -/
theorem c5_null_output_not_inferred_witness :
    from_substrait_scalar_func polyRegistry rexPolyW
      (.mk 6 [valueArg (litExpr (.int64 1) .int64), valueArg (litExpr (.int64 2) .int64)])
      testExtensions
      = .ok (TypedExpr.new (.Literal (.bool false) .null) (ColumnType.new_nullable .null)) :=
  c5_null_output_not_inferred polyRegistry rexPolyW testExtensions 6 "nullout"
    (litExpr (.int64 1) .int64) (litExpr (.int64 2) .int64)
    (.int64 1) .int64 (.int64 2) .int64 ⟨.int64, true⟩ ⟨.int64, true⟩
    .Eq ⟨[.int64, .int64], .null⟩ (.bool false)
    rfl rfl rfl rfl rfl rfl rfl

/-- Rewriting of the argument partition into an explicit pair. -/
theorem partition_arg_eq (te : TypedExpr) :
    partition_arg te
      = (te.expr, if te.expr.is_literal then none else some te.typ.scalar_type) := by
  unfold partition_arg
  split <;> rfl

/-- C6 (amended): in a binary call that is not fully constant-folded, each
literal argument has its value cast to the signature's input type at its
position and its declared type replaced by that input type; when that input
type is untyped/null the value cast is skipped (the value is kept) but the
declared type is still replaced by the (null) input type — the literal is
not left entirely unchanged, contrary to the claim; non-literal arguments
are left untouched. -/
theorem c6_binary_literal_implicit_cast :
    (∀ (reg : Registry) (rexFn : Expression → RRes TypedExpr) (ext : FunctionExtensions)
       (fref : Nat) (name : String) (eA eB : Expression) (te1 te2 : TypedExpr)
       (func : BinaryFunc) (signature : Signature) (e1' e2' : ScalarExpr),
       ext.get fref = some name →
       rexFn eA = .ok te1 → rexFn eB = .ok te2 →
       exceptIsErr (reg.variadic_from_str_and_types name
         [ if te1.expr.is_literal then none else some te1.typ.scalar_type
         , if te2.expr.is_literal then none else some te2.typ.scalar_type]) = true →
       reg.binary_from_str_expr_and_type name [te1.expr, te2.expr]
         [ if te1.expr.is_literal then none else some te1.typ.scalar_type
         , if te2.expr.is_literal then none else some te2.typ.scalar_type]
         = .ok (func, signature) →
       (te1.expr.is_literal && te2.expr.is_literal) = false →
       cast_literal_arg signature 0 te1.expr = .ok e1' →
       cast_literal_arg signature 1 te2.expr = .ok e2' →
       from_substrait_scalar_func reg rexFn (.mk fref [valueArg eA, valueArg eB]) ext
         = .ok (TypedExpr.new (.CallBinary func e1' e2')
             (ColumnType.new_nullable (reg.binary_signature func).output))) ∧
    (∀ (signature : Signature) (idx : Nat) (e : ScalarExpr), e.is_literal = false →
       cast_literal_arg signature idx e = .ok e) ∧
    (∀ (signature : Signature) (idx : Nat) (v : Value) (t d : CDT) (v' : Value),
       signature.input[idx]? = some d → d.is_null = false → dtypes_cast v d = some v' →
       cast_literal_arg signature idx (.Literal v t) = .ok (.Literal v' d)) ∧
    (∀ (signature : Signature) (idx : Nat) (v : Value) (t d : CDT),
       signature.input[idx]? = some d → d.is_null = true →
       cast_literal_arg signature idx (.Literal v t) = .ok (.Literal v d)) := by
  refine ⟨?_, ?_, ?_, ?_⟩
  · intro reg rexFn ext fref name eA eB te1 te2 func signature e1' e2'
      hname hA hB hvar hbin hnl hc1 hc2
    simp [from_substrait_scalar_func, PScalarFunction.function_reference,
      PScalarFunction.arguments, hname, collect_args, valueArg, FunctionArgument.arg_type,
      hA, hB, partition_arg_eq, scalar_func_resolve, hvar, hbin, hnl, hc1, hc2,
      ScalarExpr.call_binary]
  · intro signature idx e he
    cases e <;> simp_all [cast_literal_arg, ScalarExpr.is_literal]
  · intro signature idx v t d v' hd hnn hcast
    simp [cast_literal_arg, hd, hnn, hcast]
  · intro signature idx v t d hd hn
    simp [cast_literal_arg, hd, hn]

/-- C6 witness: `number + 1` over the uint32 column — the int64 literal is
cast to uint32 and retyped to uint32 (the non-literal column is untouched);
and a literal meeting a null-typed signature slot keeps its value but has
its declared type replaced by the null type. -/
theorem c6_binary_literal_implicit_cast_witness :
    from_substrait_scalar_func specRegistry rexW
      (.mk 4 [valueArg (colRefExpr 0), valueArg (litExpr (.int64 1) .int64)])
      testExtensions
      = .ok (TypedExpr.new (.CallBinary .AddUInt32 (.Column 0) (.Literal (.uint32 1) .uint32))
          (ColumnType.new_nullable .uint32)) ∧
    cast_literal_arg ⟨[.uint32, .null], .bool⟩ 1 (.Literal (.int64 5) .int64)
      = .ok (.Literal (.int64 5) .null) :=
  ⟨c6_binary_literal_implicit_cast.1 specRegistry rexW testExtensions 4 "add"
      (colRefExpr 0) (litExpr (.int64 1) .int64)
      ⟨.Column 0, ⟨.uint32, false⟩⟩ ⟨.Literal (.int64 1) .int64, ⟨.int64, true⟩⟩
      .AddUInt32 ⟨[.uint32, .uint32], .uint32⟩
      (.Column 0) (.Literal (.uint32 1) .uint32)
      rfl rfl rfl rfl rfl rfl rfl rfl,
   c6_binary_literal_implicit_cast.2.2.2 ⟨[.uint32, .null], .bool⟩ 1
      (.int64 5) .int64 .null rfl rfl⟩

/-- C6 counterexample: under `polyRegistry`, translating
`nullin(Column 0, 5:int64)` — whose signature's second input type is the
null type — changes the literal argument: its declared type becomes the
null type instead of staying int64, so the literal is not "left unchanged"
as the claim states. -/
theorem c6_null_input_type_counterexample :
    from_substrait_rex polyRegistry 2
      (funcCallExpr 7 [colRefExpr 0, litExpr (.int64 5) .int64]) uint32Schema testExtensions
      = .ok (TypedExpr.new (.CallBinary .Gte (.Column 0) (.Literal (.int64 5) .null))
          (ColumnType.new_nullable .bool)) ∧
    ScalarExpr.Literal (.int64 5) .null ≠ ScalarExpr.Literal (.int64 5) .int64 :=
  ⟨rfl, by simp⟩

/-- C8: a cast node translates to a `CallUnary` applying the resolved unary
cast function to the translated input expression, with result type the
nullable form of the decoded target type; the operand is kept exactly as
translated (a literal operand is not pre-evaluated and keeps its original
literal type).  In the modelled registry the resolved function is the cast
parameterized by the target type. -/
theorem c8_cast_to_call_unary (reg : Registry) (fuel : Nat) (schema : RelationType)
    (ext : FunctionExtensions) (input_e : Expression) (t : PType)
    (ie : TypedExpr) (func : UnaryFunc)
    (hin : from_substrait_rex reg fuel input_e schema ext = .ok ie)
    (hres : reg.unary_from_str_and_type "cast" (some (from_substrait_type t)) = .ok func) :
    from_substrait_rex reg (fuel + 1) (.mk (some (.cast (.mk (some input_e) (some t)))))
      schema ext
      = .ok (TypedExpr.new (.CallUnary func ie.expr)
          (ColumnType.new_nullable (from_substrait_type t))) ∧
    (∀ ct : CDT, specRegistry.unary_from_str_and_type "cast" (some ct) = .ok (.Cast ct)) := by
  constructor
  · simp [from_substrait_rex, Expression.rex_type, PCast.input, PCast.typ, hin, hres,
      ScalarExpr.call_unary]
  · intro ct; rfl

/-- C8 witness: `CAST(1 AS INT16)` — the int64 literal 1 stays an int64
literal under an explicit `CallUnary` cast-to-int16 node of nullable int16
type (mirroring the repository's `test_cast`). -/
theorem c8_cast_to_call_unary_witness :
    from_substrait_rex specRegistry 2 (castExpr (litExpr (.int64 1) .int64) .int16)
      uint32Schema testExtensions
      = .ok (TypedExpr.new (.CallUnary (.Cast .int16) (.Literal (.int64 1) .int64))
          (ColumnType.new_nullable .int16)) :=
  (c8_cast_to_call_unary specRegistry 1 uint32Schema testExtensions
    (litExpr (.int64 1) .int64) ⟨.int16⟩
    ⟨.Literal (.int64 1) .int64, ⟨.int64, true⟩⟩ (.Cast .int16) rfl rfl).1

/-- C10: an if-then node with zero clauses translates successfully to just
its else branch — the translated else expression when present, otherwise
the default null literal of nullable null column type; no `If` node is
constructed. -/
theorem c10_empty_ifthen (rexFn : Expression → RRes TypedExpr) :
    from_substrait_ifthen_rex rexFn (.mk [] none)
      = .ok (TypedExpr.new (.Literal .null .null) (ColumnType.new_nullable .null)) ∧
    (∀ e te, rexFn e = .ok te →
      from_substrait_ifthen_rex rexFn (.mk [] (some e)) = .ok te) := by
  constructor
  · rfl
  · intro e te h
    simp [from_substrait_ifthen_rex, PIfThen.ifs, PIfThen.els, collect_ifs, ifthen_els, h,
      build_if_then_recur]

/-- C10 witness: with no clauses and no else branch the result is the null
literal; with no clauses and a literal else branch the result is exactly
that translated literal. -/
theorem c10_empty_ifthen_witness :
    from_substrait_ifthen_rex rexW (.mk [] none)
      = .ok (TypedExpr.new (.Literal .null .null) (ColumnType.new_nullable .null)) ∧
    from_substrait_ifthen_rex rexW (.mk [] (some (litExpr (.int64 7) .int64)))
      = .ok ⟨.Literal (.int64 7) .int64, ⟨.int64, true⟩⟩ :=
  ⟨(c10_empty_ifthen rexW).1,
   (c10_empty_ifthen rexW).2 (litExpr (.int64 7) .int64)
     ⟨.Literal (.int64 7) .int64, ⟨.int64, true⟩⟩ rfl⟩

/-- C3 (amended): function resolution order in scalar-function-call
translation.  For argument count 1, variadic resolution is attempted first
and unary resolution only if variadic fails, the unary outcome — success or
error — being final; for argument count 2, the same with binary resolution;
for any other arity, or when the 1/2-argument variadic attempt succeeded,
variadic resolution is attempted, then unmaterializable resolution, in that
order, before the call fails as unsupported.  (Contrary to the claim, a
failed 1/2-argument variadic attempt leads to the final unary/binary
outcome; it never reaches unmaterializable resolution or the unsupported
failure.) -/
theorem c3_resolution_order :
    (∀ (reg : Registry) (name : String) (a1 : ScalarExpr) (t1 : Option CDT) (func : UnaryFunc),
       exceptIsErr (reg.variadic_from_str_and_types name [t1]) = true →
       reg.unary_from_str_and_type name none = .ok func →
       scalar_func_resolve reg name [(a1, t1)]
         = .ok (TypedExpr.new (a1.call_unary func)
             (ColumnType.new_nullable (reg.unary_signature func).output))) ∧
    (∀ (reg : Registry) (name : String) (a1 : ScalarExpr) (t1 : Option CDT) (e : FlowError),
       exceptIsErr (reg.variadic_from_str_and_types name [t1]) = true →
       reg.unary_from_str_and_type name none = .error e →
       scalar_func_resolve reg name [(a1, t1)] = .err e) ∧
    (∀ (reg : Registry) (name : String) (a1 : ScalarExpr) (t1 : Option CDT),
       exceptIsErr (reg.variadic_from_str_and_types name [t1]) = false →
       scalar_func_resolve reg name [(a1, t1)] = scalar_func_var reg name [a1] [t1]) ∧
    (∀ (reg : Registry) (name : String) (a1 a2 : ScalarExpr) (t1 t2 : Option CDT)
       (e : FlowError),
       exceptIsErr (reg.variadic_from_str_and_types name [t1, t2]) = true →
       reg.binary_from_str_expr_and_type name [a1, a2] [t1, t2] = .error e →
       scalar_func_resolve reg name [(a1, t1), (a2, t2)] = .err e) ∧
    (∀ (reg : Registry) (name : String) (a1 a2 : ScalarExpr) (t1 t2 : Option CDT),
       exceptIsErr (reg.variadic_from_str_and_types name [t1, t2]) = false →
       scalar_func_resolve reg name [(a1, t1), (a2, t2)]
         = scalar_func_var reg name [a1, a2] [t1, t2]) ∧
    (∀ (reg : Registry) (name : String),
       scalar_func_resolve reg name [] = scalar_func_var reg name [] []) ∧
    (∀ (reg : Registry) (name : String) (p1 p2 p3 : ScalarExpr × Option CDT)
       (rest : List (ScalarExpr × Option CDT)),
       scalar_func_resolve reg name (p1 :: p2 :: p3 :: rest)
         = scalar_func_var reg name ((p1 :: p2 :: p3 :: rest).map Prod.fst)
             ((p1 :: p2 :: p3 :: rest).map Prod.snd)) ∧
    (∀ (reg : Registry) (name : String) (arg_exprs : List ScalarExpr)
       (arg_types : List (Option CDT)) (func : VariadicFunc),
       reg.variadic_from_str_and_types name arg_types = .ok func →
       scalar_func_var reg name arg_exprs arg_types
         = .ok (TypedExpr.new (ScalarExpr.CallVariadic func arg_exprs).optimize
             (ColumnType.new_nullable (reg.variadic_signature func).output))) ∧
    (∀ (reg : Registry) (name : String) (arg_exprs : List ScalarExpr)
       (arg_types : List (Option CDT)) (e : FlowError) (func : UnmaterializableFunc),
       reg.variadic_from_str_and_types name arg_types = .error e →
       reg.unmaterializable_from_str name = .ok func →
       scalar_func_var reg name arg_exprs arg_types
         = .ok (TypedExpr.new (.CallUnmaterializable func)
             (ColumnType.new_nullable (reg.unmaterializable_signature func).output))) ∧
    (∀ (reg : Registry) (name : String) (arg_exprs : List ScalarExpr)
       (arg_types : List (Option CDT)) (e e2 : FlowError),
       reg.variadic_from_str_and_types name arg_types = .error e →
       reg.unmaterializable_from_str name = .error e2 →
       scalar_func_var reg name arg_exprs arg_types
         = .err (.notImplemented
             ("Unsupported function " ++ name ++ " with "
               ++ toString arg_exprs.length ++ " arguments"))) := by
  refine ⟨?_, ?_, ?_, ?_, ?_, ?_, ?_, ?_, ?_, ?_⟩
  · intro reg name a1 t1 func hvar hun
    simp [scalar_func_resolve, hvar, hun]
  · intro reg name a1 t1 e hvar hun
    simp [scalar_func_resolve, hvar, hun]
  · intro reg name a1 t1 hvar
    simp [scalar_func_resolve, hvar]
  · intro reg name a1 a2 t1 t2 e hvar hbin
    simp [scalar_func_resolve, hvar, hbin]
  · intro reg name a1 a2 t1 t2 hvar
    simp [scalar_func_resolve, hvar]
  · intro reg name
    rfl
  · intro reg name p1 p2 p3 rest
    rfl
  · intro reg name arg_exprs arg_types func hvar
    simp [scalar_func_var, hvar]
  · intro reg name arg_exprs arg_types e func hvar hun
    simp [scalar_func_var, hvar, hun]
  · intro reg name arg_exprs arg_types e e2 hvar hun
    simp [scalar_func_var, hvar, hun]

/-- C3 counterexample: `now` called with one argument.  Its 1-argument
variadic attempt fails and unmaterializable resolution would succeed for
that name, yet the call reports the unary resolution error — it is not
routed through variadic-then-unmaterializable resolution as the claim's
"when the 1/2-argument variadic attempt failed too" clause requires. -/
theorem c3_resolution_order_counterexample :
    specRegistry.unmaterializable_from_str "now" = .ok .Now ∧
    from_substrait_rex specRegistry 2 (funcCallExpr 5 [colRefExpr 0])
      uint32Schema testExtensions
      = .err (.notImplemented "Invalid unary function now") :=
  ⟨rfl, rfl⟩

/-- C3 witness: the resolution-order theorem instantiated over the modelled
registry — unary success and unary failure with one argument, binary
failure with two, variadic dispatch for one/two arguments and other
arities, and the variadic/unmaterializable/unsupported fallback chain. -/
theorem c3_resolution_order_witness :
    scalar_func_resolve specRegistry "not" [(.Column 0, some .bool)]
      = .ok (TypedExpr.new (.CallUnary .Not (.Column 0)) (ColumnType.new_nullable .bool)) ∧
    scalar_func_resolve specRegistry "now" [(.Column 0, some .uint32)]
      = .err (.notImplemented "Invalid unary function now") ∧
    scalar_func_resolve specRegistry "and" [(.Column 0, some .bool)]
      = scalar_func_var specRegistry "and" [.Column 0] [some .bool] ∧
    scalar_func_resolve specRegistry "now" [(.Column 0, some .uint32), (.Column 1, some .uint32)]
      = .err (.notImplemented "Invalid binary function now") ∧
    scalar_func_resolve specRegistry "and" [(.Column 0, some .bool), (.Column 1, some .bool)]
      = scalar_func_var specRegistry "and" [.Column 0, .Column 1] [some .bool, some .bool] ∧
    scalar_func_resolve specRegistry "now" []
      = scalar_func_var specRegistry "now" [] [] ∧
    scalar_func_resolve specRegistry "and"
        [(.Column 0, some .bool), (.Column 1, some .bool), (.Column 2, some .bool)]
      = scalar_func_var specRegistry "and" [.Column 0, .Column 1, .Column 2]
          [some .bool, some .bool, some .bool] ∧
    scalar_func_var specRegistry "and" [.Column 0] [some .bool]
      = .ok (TypedExpr.new (.CallVariadic .And [.Column 0]) (ColumnType.new_nullable .bool)) ∧
    scalar_func_var specRegistry "now" [] []
      = .ok (TypedExpr.new (.CallUnmaterializable .Now) (ColumnType.new_nullable .int64)) ∧
    scalar_func_var specRegistry "foo" [] []
      = .err (.notImplemented "Unsupported function foo with 0 arguments") :=
  ⟨c3_resolution_order.1 specRegistry "not" (.Column 0) (some .bool) .Not rfl rfl,
   c3_resolution_order.2.1 specRegistry "now" (.Column 0) (some .uint32)
     (.notImplemented "Invalid unary function now") rfl rfl,
   c3_resolution_order.2.2.1 specRegistry "and" (.Column 0) (some .bool) rfl,
   c3_resolution_order.2.2.2.1 specRegistry "now" (.Column 0) (.Column 1)
     (some .uint32) (some .uint32) (.notImplemented "Invalid binary function now") rfl rfl,
   c3_resolution_order.2.2.2.2.1 specRegistry "and" (.Column 0) (.Column 1)
     (some .bool) (some .bool) rfl,
   c3_resolution_order.2.2.2.2.2.1 specRegistry "now",
   c3_resolution_order.2.2.2.2.2.2.1 specRegistry "and"
     (.Column 0, some .bool) (.Column 1, some .bool) (.Column 2, some .bool) [],
   c3_resolution_order.2.2.2.2.2.2.2.1 specRegistry "and" [.Column 0] [some .bool] .And rfl,
   c3_resolution_order.2.2.2.2.2.2.2.2.1 specRegistry "now" [] []
     (.notImplemented "Invalid variadic function now") .Now rfl rfl,
   c3_resolution_order.2.2.2.2.2.2.2.2.2 specRegistry "foo" [] []
     (.notImplemented "Invalid variadic function foo")
     (.notImplemented "Invalid unmaterializable function foo") rfl rfl⟩

/-- Splitting clause translation over an append: the translation of a
concatenated clause list is the translation of the prefix sequenced with
the translation of the remainder. -/
theorem collect_ifs_append (rexFn : Expression → RRes TypedExpr)
    (pre rest : List IfClause) :
    collect_ifs rexFn (pre ++ rest)
      = (collect_ifs rexFn pre).andThen (fun l =>
          (collect_ifs rexFn rest).andThen (fun r => .ok (l ++ r))) := by
  induction pre with
  | nil =>
    cases hrest : collect_ifs rexFn rest <;> simp [collect_ifs, hrest, RRes.andThen]
  | cons c cs ih =>
    cases hc : c.if_cond with
    | none => simp [collect_ifs, hc, RRes.andThen]
    | some pi =>
      cases ht : c.then_val with
      | none => simp [collect_ifs, hc, ht, RRes.andThen]
      | some pt =>
        cases hci : rexFn pi with
        | ok cond =>
          cases hti : rexFn pt with
          | ok thn =>
            cases hcs : collect_ifs rexFn cs with
            | ok l2 =>
              cases hrest : collect_ifs rexFn rest <;>
                simp [collect_ifs, hc, ht, hci, hti, hcs, hrest, ih, RRes.andThen]
            | err e => simp [collect_ifs, hc, ht, hci, hti, hcs, ih, RRes.andThen]
            | panic => simp [collect_ifs, hc, ht, hci, hti, hcs, ih, RRes.andThen]
            | nofuel => simp [collect_ifs, hc, ht, hci, hti, hcs, ih, RRes.andThen]
          | err e => simp [collect_ifs, hc, ht, hci, hti, RRes.andThen]
          | panic => simp [collect_ifs, hc, ht, hci, hti, RRes.andThen]
          | nofuel => simp [collect_ifs, hc, ht, hci, hti, RRes.andThen]
        | err e => simp [collect_ifs, hc, ht, hci, RRes.andThen]
        | panic => simp [collect_ifs, hc, ht, hci, RRes.andThen]
        | nofuel => simp [collect_ifs, hc, ht, hci, RRes.andThen]

/-- C9: an if-then chain whose clauses and else branch translate cleanly is
built by `build_if_then_recur` as a right-associated nested `If` tree (each
node typed from its own then branch, the empty tail yielding the else
expression); the else branch defaults to the null literal of nullable null
type when absent; and a clause missing its condition or its consequent
makes translation fail with the corresponding `InvalidQuery` error. -/
theorem c9_ifthen_chain (rexFn : Expression → RRes TypedExpr) :
    (∀ (ifs : List IfClause) (els : Option Expression)
       (l : List (TypedExpr × TypedExpr)) (te : TypedExpr),
       collect_ifs rexFn ifs = .ok l → ifthen_els rexFn els = .ok te →
       from_substrait_ifthen_rex rexFn (.mk ifs els) = .ok (build_if_then_recur l te)) ∧
    (∀ (cond then_res : TypedExpr) (rest : List (TypedExpr × TypedExpr)) (els : TypedExpr),
       build_if_then_recur ((cond, then_res) :: rest) els
         = TypedExpr.new (.If cond.expr then_res.expr (build_if_then_recur rest els).expr)
             then_res.typ) ∧
    (∀ els : TypedExpr, build_if_then_recur [] els = els) ∧
    ifthen_els rexFn none
      = .ok (TypedExpr.new ScalarExpr.literal_null (ColumnType.new_nullable .null)) ∧
    (∀ (pre post : List IfClause) (c : IfClause) (els : Option Expression)
       (l : List (TypedExpr × TypedExpr)),
       collect_ifs rexFn pre = .ok l → c.if_cond = none →
       from_substrait_ifthen_rex rexFn (.mk (pre ++ c :: post) els)
         = .err (.invalidQuery "IfThen clause without if")) ∧
    (∀ (pre post : List IfClause) (c : IfClause) (els : Option Expression)
       (l : List (TypedExpr × TypedExpr)) (pi : Expression),
       collect_ifs rexFn pre = .ok l → c.if_cond = some pi → c.then_val = none →
       from_substrait_ifthen_rex rexFn (.mk (pre ++ c :: post) els)
         = .err (.invalidQuery "IfThen clause without then")) := by
  refine ⟨?_, ?_, ?_, rfl, ?_, ?_⟩
  · intro ifs els l te hl hte
    simp [from_substrait_ifthen_rex, PIfThen.ifs, PIfThen.els, hl, hte]
  · intro cond then_res rest els
    rfl
  · intro els
    rfl
  · intro pre post c els l hl hc
    have happ := collect_ifs_append rexFn pre (c :: post)
    rw [hl] at happ
    simp [RRes.andThen, collect_ifs, hc] at happ
    simp [from_substrait_ifthen_rex, PIfThen.ifs, PIfThen.els, happ]
  · intro pre post c els l pi hl hc ht
    have happ := collect_ifs_append rexFn pre (c :: post)
    rw [hl] at happ
    simp [RRes.andThen, collect_ifs, hc, ht] at happ
    simp [from_substrait_ifthen_rex, PIfThen.ifs, PIfThen.els, happ]

/-- C9 witness: a two-clause chain with an else branch builds the
right-associated nested `If` typed from the then branches; a clause with no
condition or no consequent fails with the matching `InvalidQuery`
errors. -/
theorem c9_ifthen_chain_witness :
    from_substrait_ifthen_rex rexW
      (.mk [ .mk (some (litExpr (.bool true) .bool)) (some (litExpr (.int64 1) .int64))
           , .mk (some (litExpr (.bool false) .bool)) (some (litExpr (.int64 2) .int64))]
        (some (litExpr (.int64 3) .int64)))
      = .ok (TypedExpr.new
          (.If (.Literal (.bool true) .bool) (.Literal (.int64 1) .int64)
            (.If (.Literal (.bool false) .bool) (.Literal (.int64 2) .int64)
              (.Literal (.int64 3) .int64)))
          ⟨.int64, true⟩) ∧
    from_substrait_ifthen_rex rexW (.mk [.mk none none] none)
      = .err (.invalidQuery "IfThen clause without if") ∧
    from_substrait_ifthen_rex rexW
      (.mk [.mk (some (litExpr (.bool true) .bool)) none] none)
      = .err (.invalidQuery "IfThen clause without then") :=
  ⟨(c9_ifthen_chain rexW).1
      [ .mk (some (litExpr (.bool true) .bool)) (some (litExpr (.int64 1) .int64))
      , .mk (some (litExpr (.bool false) .bool)) (some (litExpr (.int64 2) .int64))]
      (some (litExpr (.int64 3) .int64))
      [ (⟨.Literal (.bool true) .bool, ⟨.bool, true⟩⟩,
         ⟨.Literal (.int64 1) .int64, ⟨.int64, true⟩⟩)
      , (⟨.Literal (.bool false) .bool, ⟨.bool, true⟩⟩,
         ⟨.Literal (.int64 2) .int64, ⟨.int64, true⟩⟩)]
      ⟨.Literal (.int64 3) .int64, ⟨.int64, true⟩⟩ rfl rfl,
   (c9_ifthen_chain rexW).2.2.2.2.1 [] [] (.mk none none) none [] rfl rfl,
   (c9_ifthen_chain rexW).2.2.2.2.2 [] [] (.mk (some (litExpr (.bool true) .bool)) none)
     none [] (litExpr (.bool true) .bool) rfl rfl rfl⟩

/-- A child that is not a variadic call of the same operator is kept
unflattened by the optimizer. -/
theorem optimize_child_of_not_same (vf : VariadicFunc) (e : ScalarExpr)
    (h : is_variadic_call_of vf e = false) : optimize_child vf e = [e] := by
  cases e <;> simp_all [is_variadic_call_of, optimize_child]

/-- A child that is a variadic call of the same operator is flattened into
its argument list by the optimizer. -/
theorem optimize_child_same (vf : VariadicFunc) (es : List ScalarExpr) :
    optimize_child vf (.CallVariadic vf es) = es := by
  simp [optimize_child]

/-- Translation of a left-nested chain of two-argument calls of an
always-variadic operator: the result is `chain_result` — the bottom-up
recursion re-flattens at every level, so the argument list stays flat. -/
theorem and_chain_translation (reg : Registry) (schema : RelationType)
    (ext : FunctionExtensions) (fref : Nat) (name : String) (vf : VariadicFunc)
    (f0 : Nat) (tr : Expression → TypedExpr)
    (hext : ext.get fref = some name)
    (hvar : ∀ ts, reg.variadic_from_str_and_types name ts = .ok vf)
    (first : Expression) (rest : List Expression)
    (hcmp : ∀ c ∈ first :: rest,
      (∀ fuel, f0 ≤ fuel → from_substrait_rex reg fuel c schema ext = .ok (tr c)) ∧
      is_variadic_call_of vf (tr c).expr = false) :
    ∀ fuel, f0 + rest.length ≤ fuel →
      from_substrait_rex reg fuel (and_chain fref first rest) schema ext
        = .ok (chain_result reg vf tr first rest) := by
  induction rest using List.reverseRecOn with
  | nil =>
    intro fuel hf
    simp only [and_chain, List.foldl_nil, chain_result]
    exact (hcmp first (by simp)).1 fuel (by omega)
  | append_singleton rs c ih =>
    intro fuel hf
    obtain ⟨fuel', rfl⟩ : ∃ fuel', fuel = fuel' + 1 :=
      ⟨fuel - 1, by simp [List.length_append] at hf; omega⟩
    have hf' : f0 + rs.length ≤ fuel' := by simp [List.length_append] at hf; omega
    have hL := ih (fun c' hc' =>
      hcmp c' (by simp [List.mem_cons, List.mem_append] at hc' ⊢; tauto)) fuel' hf'
    have hC := (hcmp c (by simp)).1 fuel' (by omega)
    have hchain : and_chain fref first (rs ++ [c])
        = funcCallExpr fref [and_chain fref first rs, c] := by
      simp [and_chain, List.foldl_append]
    rw [hchain]
    simp only [from_substrait_rex, funcCallExpr, Expression.rex_type]
    simp only [from_substrait_scalar_func, PScalarFunction.function_reference,
      PScalarFunction.arguments, hext]
    simp only [collect_args, valueArg, FunctionArgument.arg_type, List.map_cons, List.map_nil,
      hL, hC]
    simp only [List.map_cons, List.map_nil, partition_arg_eq]
    simp only [scalar_func_resolve, hvar, exceptIsErr]
    simp only [scalar_func_var, hvar]
    rcases rs with _ | ⟨r, rs'⟩
    · simp only [chain_result, ScalarExpr.optimize, List.flatMap_cons, List.flatMap_nil,
        optimize_child_of_not_same vf _ (hcmp first (by simp)).2,
        optimize_child_of_not_same vf _ (hcmp c (by simp)).2]
      simp [TypedExpr.new]
    · simp only [chain_result, ScalarExpr.optimize, List.flatMap_cons, List.flatMap_nil,
        optimize_child_same, optimize_child_of_not_same vf _ (hcmp c (by simp)).2]
      simp [optimize_child_same, TypedExpr.new, List.map_append]

/-- C7: translating a left-nested chain of N ≥ 2 two-argument calls of an
always-variadic operator (e.g. AND) whose operands translate to
non-variadic expressions (e.g. comparisons) yields one `CallVariadic` with
the flat N-element list of all translated operands — never nested binary or
nested variadic calls — because the optimization pass run immediately after
building each `CallVariadic` flattens a nested call of the same operator
into the flat argument list. -/
theorem c7_and_chain_flattening (reg : Registry) (schema : RelationType)
    (ext : FunctionExtensions) (fref : Nat) (name : String) (vf : VariadicFunc)
    (f0 : Nat) (tr : Expression → TypedExpr)
    (hext : ext.get fref = some name)
    (hvar : ∀ ts, reg.variadic_from_str_and_types name ts = .ok vf)
    (first : Expression) (rest : List Expression) (hne : rest ≠ [])
    (hcmp : ∀ c ∈ first :: rest,
      (∀ fuel, f0 ≤ fuel → from_substrait_rex reg fuel c schema ext = .ok (tr c)) ∧
      is_variadic_call_of vf (tr c).expr = false) :
    ∀ fuel, f0 + rest.length ≤ fuel →
      from_substrait_rex reg fuel (and_chain fref first rest) schema ext
        = .ok (TypedExpr.new
            (.CallVariadic vf ((first :: rest).map (fun c => (tr c).expr)))
            (ColumnType.new_nullable (reg.variadic_signature vf).output)) := by
  intro fuel hf
  have hmain := and_chain_translation reg schema ext fref name vf f0 tr hext hvar
    first rest hcmp fuel hf
  rcases rest with _ | ⟨r, rs⟩
  · exact absurd rfl hne
  · simpa [chain_result] using hmain

/-- C7 witness: a three-element chain `x AND x AND x` of column references
collapses to one flat ternary `CallVariadic And`. -/
theorem c7_and_chain_flattening_witness :
    from_substrait_rex specRegistry 4
      (and_chain 0 (colRefExpr 0) [colRefExpr 0, colRefExpr 0]) uint32Schema testExtensions
      = .ok (TypedExpr.new (.CallVariadic .And [.Column 0, .Column 0, .Column 0])
          (ColumnType.new_nullable .bool)) := by
  refine c7_and_chain_flattening specRegistry uint32Schema testExtensions 0 "and" .And 1
    (fun _ => ⟨.Column 0, ⟨.uint32, false⟩⟩) rfl (fun ts => rfl)
    (colRefExpr 0) [colRefExpr 0, colRefExpr 0] (by simp) ?_ 4 (by decide)
  intro c hc
  have hceq : c = colRefExpr 0 := by simp at hc; tauto
  subst hceq
  constructor
  · intro fuel hfuel
    obtain ⟨k, rfl⟩ : ∃ k, fuel = k + 1 := ⟨fuel - 1, by omega⟩
    simp [from_substrait_rex, colRefExpr, Expression.rex_type, uint32Schema, TypedExpr.new]
  · rfl
